import Mathlib

/-!
Shallow embedding of the account-settings page of the book-app repository
(src/src/pages/settings.tsx and the server-side session gate), together with
theorems about its validation rules, file-selection handler, submit flow and
session gate.
-/

namespace BookApp

/-- A browser file as far as the page inspects it: its MIME type string
(`file.type`) and its size in bytes (`file.size`). -/
structure File where
  type : String
  size : Nat
deriving Repr, DecidableEq

/-- The form values of type `Inputs` in settings.tsx: `name`, `description`,
`image`. -/
structure Inputs where
  name : String
  description : String
  image : String
deriving Repr, DecidableEq

/-- The per-field error slots tracked by the form (`errors.name`,
`errors.description`, `errors.image`); `some msg` is an active error whose
`message` is `msg` (possibly the empty string), `none` is no error. -/
structure FormErrors where
  name : Option String
  description : Option String
  image : Option String
deriving Repr, DecidableEq

/-- The client-side state the handlers read and write: the form error slots
and the staged file (`selectedFile` React state, `undefined` initially). -/
structure ClientState where
  errors : FormErrors
  selectedFile : Option File
deriving Repr, DecidableEq

/-- Whether `pat` occurs as a contiguous run inside `l`. -/
def listContains (pat : List Char) : List Char → Bool
  | [] => pat.isEmpty
  | c :: rest => pat.isPrefixOf (c :: rest) || listContains pat rest

/-- JavaScript `s.indexOf(pat) !== -1`: whether `pat` occurs as a substring
of `s`. -/
def strContains (s pat : String) : Bool :=
  listContains pat.toList s.toList

/-- The zod schema rule for `name` in settings.tsx:
`z.string().min(1, "Username is required.").max(13, "Username must be 13 characters or less.")`,
returning the message of the first failing check, or `none` when the name is
valid. -/
def validateName (name : String) : Option String :=
  if name.length < 1 then some "Username is required."
  else if name.length > 13 then some "Username must be 13 characters or less."
  else none

/-- The size test of `handleFileSelect`: `file.size / 1024 > 5120` with
JavaScript number division. Division of an integer by 1024 is exact in
IEEE-754 doubles at these magnitudes, so it is embedded as the exact
rational `size / 1024` built with `mkRat`. -/
def fileSizeRejected (size : Nat) : Bool :=
  decide (mkRat size 1024 > 5120)

/-- `handleFileSelect` from settings.tsx. The argument `file?` is
`event?.target?.files?.[0]` (absent when no file is chosen). The handler
first runs `clearErrors("image")`; then, only when a file is present and its
size is truthy (nonzero), it rejects non-image MIME types, then oversized
files, and otherwise stores the file in `selectedFile`. -/
def handleFileSelect (file? : Option File) (s : ClientState) : ClientState :=
  let s := { s with errors := { s.errors with image := none } }
  match file? with
  | some file =>
    if file.size ≠ 0 then
      if strContains file.type "image" = false then
        { s with errors := { s.errors with image := some "Only images are allowed." } }
      else if fileSizeRejected file.size then
        { s with errors := { s.errors with image := some "Maximum file size is 5MB." } }
      else { s with selectedFile := some file }
    else s
  | none => s

/-- The `{url, key}` pair returned by the `getPresignedUrl` endpoint. -/
structure Ticket where
  url : String
  key : String
deriving Repr, DecidableEq

/-- A toast emitted through react-hot-toast: `toast.success` or
`toast.error` with its message. -/
inductive Toast where
  | success (msg : String)
  | error (msg : String)
deriving Repr, DecidableEq

/-- The observable content of the `fetch(url, { method: "PUT", ... })` call:
target URL and the `Content-Type` header. -/
structure PutRequest where
  url : String
  contentType : String
deriving Repr, DecidableEq

/-- The object `{ ...data, setupCompleted: true }` passed to the
`updateUser` mutation. -/
structure UpdatePayload where
  name : String
  description : String
  image : String
  setupCompleted : Bool
deriving Repr, DecidableEq

/-- The outcomes of the three awaited network operations during one
submission: the `getPresignedUrl` mutation, the PUT `fetch` (by URL), and
the `updateUser` mutation (by payload). `Except.error ()` is a rejected
promise, caught by the surrounding `try`/`catch`. -/
structure Effects where
  presign : Except Unit Ticket
  put : String → Except Unit Unit
  update : UpdatePayload → Except Unit Unit

/-- Everything observable about one run of `onSubmit`: the PUT request
issued (if any), the payload `updateUser` was invoked with (if it was
invoked at all), the toasts emitted, and the client state afterwards. -/
structure SubmitResult where
  putRequest : Option PutRequest
  updateCall : Option UpdatePayload
  toasts : List Toast
  state : ClientState
deriving Repr

/-- The second `try` block of `onSubmit`: `await updateUser({...data,
setupCompleted: true})`, then `toast.success("Account settings saved!")` on
fulfilment or `toast.error("Something went wrong!")` on rejection. -/
def finishUpdate (eff : Effects) (s : ClientState) (payload : UpdatePayload)
    (putReq : Option PutRequest) : SubmitResult :=
  match eff.update payload with
  | Except.ok _ =>
      { putRequest := putReq, updateCall := some payload,
        toasts := [Toast.success "Account settings saved!"], state := s }
  | Except.error _ =>
      { putRequest := putReq, updateCall := some payload,
        toasts := [Toast.error "Something went wrong!"], state := s }

/-- `onSubmit` from settings.tsx. When a file is staged, it awaits
`getPresignedUrl()`, PUTs the file to the returned `url` with the file MIME
type as `Content-Type`, and overwrites `data.image` with
`NEXT_PUBLIC_BUCKET_URL + "/" + key`; a rejection of either await is caught,
sets a message-less error on the image field, emits
`toast.error("Couldn\x27t upload your file.")` and returns early. Otherwise
it proceeds to the update call. -/
def onSubmit (bucketUrl : String) (eff : Effects) (s : ClientState)
    (data : Inputs) : SubmitResult :=
  match s.selectedFile with
  | some file =>
    match eff.presign with
    | Except.error _ =>
        { putRequest := none, updateCall := none,
          toasts := [Toast.error "Couldn\x27t upload your file."],
          state := { s with errors := { s.errors with image := some "" } } }
    | Except.ok t =>
        match eff.put t.url with
        | Except.error _ =>
            { putRequest := some ⟨t.url, file.type⟩, updateCall := none,
              toasts := [Toast.error "Couldn\x27t upload your file."],
              state := { s with errors := { s.errors with image := some "" } } }
        | Except.ok _ =>
            finishUpdate eff s
              ⟨data.name, data.description, bucketUrl ++ "/" ++ t.key, true⟩
              (some ⟨t.url, file.type⟩)
  | none =>
      finishUpdate eff s ⟨data.name, data.description, data.image, true⟩ none

/-- A sequence of submissions of the same (already validated) form data:
each submission observes the client state left by the previous one, the
n-th network outcomes being the n-th entry of `effs`. -/
def runSubmissions (bucketUrl : String) (data : Inputs) :
    ClientState → List Effects → List SubmitResult
  | _, [] => []
  | s, eff :: rest =>
      let r := onSubmit bucketUrl eff s data
      r :: runSubmissions bucketUrl data r.state rest

/-- `thereAreErrors` from settings.tsx: true when `errors.description`,
`errors.image` or `errors.name` is set. -/
def thereAreErrors (e : FormErrors) : Bool :=
  if e.description.isSome || e.image.isSome || e.name.isSome then true
  else false

/-- The `disabled` expression of the submit input:
`formState.isSubmitting || thereAreErrors()`. -/
def submitDisabled (isSubmitting : Bool) (e : FormErrors) : Bool :=
  isSubmitting || thereAreErrors e

/-- The state of the rendered form relevant to the submit control: whether a
submission is in flight (`formState.isSubmitting`) and the tracked field
errors. -/
structure UIState where
  inFlight : Bool
  errors : FormErrors
deriving Repr, DecidableEq

/-- A click on the submit control: a disabled control fires nothing; an
enabled one starts a submission, putting the form in flight. The Bool
records whether a new submission started. -/
def clickSubmit (s : UIState) : UIState × Bool :=
  if submitDisabled s.inFlight s.errors then (s, false)
  else ({ s with inFlight := true }, true)

/-- The user record supplied to the page by the session gate. -/
structure User where
  name : String
  description : String
  image : String
  email : String
  setupCompleted : Bool
deriving Repr, DecidableEq

/-- What `getServerSideProps` can return: a redirect instruction
`{redirect: {destination, permanent}}` or page props `{props: {user}}`. -/
inductive GSSPResult where
  | redirect (destination : String) (permanent : Bool)
  | props (user : Option User)
deriving Repr, DecidableEq

/-- The user record a `GSSPResult` exposes to the page: only a `props`
result carries one. -/
def GSSPResult.userData : GSSPResult → Option User
  | GSSPResult.redirect _ _ => none
  | GSSPResult.props u => u

/-- The result of the session-resolving helper: a redirect destination when
the caller must be sent to login, and the fetched user record otherwise. -/
structure AuthResult where
  redirectDestination : Option String
  user : Option User
deriving Repr, DecidableEq

/-- Modelled from the spec: the `useAuth` / `authRequired` helper is not in
the provided sources; per the spec, it resolves the caller session (any
resolution error treated as no session), and if the session is absent it
yields a redirect destination pointing at the external login page, while if
present it fetches and yields the full user record. `session` is `some u`
when a session resolves and the fetched user record is `u`. -/
def useAuth (loginDestination : String) (session : Option User) : AuthResult :=
  match session with
  | none => { redirectDestination := some loginDestination, user := none }
  | some u => { redirectDestination := none, user := some u }

/-- `getServerSideProps` of the settings route: run the session helper; if
it yields a redirect destination, return a non-permanent redirect there,
otherwise return the user record as page props. -/
def getServerSideProps (loginDestination : String) (session : Option User) :
    GSSPResult :=
  let a := useAuth loginDestination session
  match a.redirectDestination with
  | some dest => GSSPResult.redirect dest false
  | none => GSSPResult.props a.user

/-! Helper lemmas shared by the claim theorems. -/

theorem fileSizeRejected_iff (size : Nat) :
    fileSizeRejected size = true ↔ 5120 * 1024 < size := by
  unfold fileSizeRejected
  rw [decide_eq_true_iff, gt_iff_lt, Rat.mkRat_eq_div]
  push_cast
  rw [lt_div_iff₀ (by norm_num : (0:ℚ) < 1024)]
  constructor <;> intro h <;> exact_mod_cast h

theorem finishUpdate_updateCall (eff : Effects) (s : ClientState)
    (payload : UpdatePayload) (putReq : Option PutRequest) :
    (finishUpdate eff s payload putReq).updateCall = some payload := by
  unfold finishUpdate
  cases eff.update payload <;> rfl

theorem finishUpdate_state (eff : Effects) (s : ClientState)
    (payload : UpdatePayload) (putReq : Option PutRequest) :
    (finishUpdate eff s payload putReq).state = s := by
  unfold finishUpdate
  cases eff.update payload <;> rfl

theorem onSubmit_noFile (bucketUrl : String) (eff : Effects) (s : ClientState)
    (data : Inputs) (h : s.selectedFile = none) :
    onSubmit bucketUrl eff s data
      = finishUpdate eff s ⟨data.name, data.description, data.image, true⟩ none := by
  unfold onSubmit
  rw [h]

theorem onSubmit_presignFail (bucketUrl : String) (eff : Effects)
    (s : ClientState) (data : Inputs) (file : File)
    (hfile : s.selectedFile = some file) (hp : eff.presign = Except.error ()) :
    onSubmit bucketUrl eff s data
      = { putRequest := none, updateCall := none,
          toasts := [Toast.error "Couldn\x27t upload your file."],
          state := { s with errors := { s.errors with image := some "" } } } := by
  simp only [onSubmit, hfile, hp]

theorem onSubmit_putFail (bucketUrl : String) (eff : Effects)
    (s : ClientState) (data : Inputs) (file : File) (t : Ticket)
    (hfile : s.selectedFile = some file) (hp : eff.presign = Except.ok t)
    (hput : eff.put t.url = Except.error ()) :
    onSubmit bucketUrl eff s data
      = { putRequest := some ⟨t.url, file.type⟩, updateCall := none,
          toasts := [Toast.error "Couldn\x27t upload your file."],
          state := { s with errors := { s.errors with image := some "" } } } := by
  simp only [onSubmit, hfile, hp, hput]

theorem onSubmit_putOk (bucketUrl : String) (eff : Effects)
    (s : ClientState) (data : Inputs) (file : File) (t : Ticket)
    (hfile : s.selectedFile = some file) (hp : eff.presign = Except.ok t)
    (hput : eff.put t.url = Except.ok ()) :
    onSubmit bucketUrl eff s data
      = finishUpdate eff s
          ⟨data.name, data.description, bucketUrl ++ "/" ++ t.key, true⟩
          (some ⟨t.url, file.type⟩) := by
  simp only [onSubmit, hfile, hp, hput]

theorem onSubmit_selectedFile (bucketUrl : String) (eff : Effects)
    (s : ClientState) (data : Inputs) :
    (onSubmit bucketUrl eff s data).state.selectedFile = s.selectedFile := by
  cases hf : s.selectedFile with
  | none =>
    rw [onSubmit_noFile bucketUrl eff s data hf, finishUpdate_state]
    exact hf
  | some file =>
    cases hp : eff.presign with
    | error e0 =>
      rw [onSubmit_presignFail bucketUrl eff s data file hf hp]
      exact hf
    | ok t =>
      cases hput : eff.put t.url with
      | error e0 =>
        rw [onSubmit_putFail bucketUrl eff s data file t hf hp hput]
        exact hf
      | ok u =>
        rw [onSubmit_putOk bucketUrl eff s data file t hf hp hput,
          finishUpdate_state]
        exact hf

/-! Claim theorems. -/

/-- C5: a name of length 0 fails validation with the message
"Username is required."; a name of length greater than 13 fails with
"Username must be 13 characters or less."; a name of length 1 to 13
produces no name error. -/
theorem name_length_validation (name : String) :
    (name.length = 0 → validateName name = some "Username is required.") ∧
    (13 < name.length →
      validateName name = some "Username must be 13 characters or less.") ∧
    (1 ≤ name.length → name.length ≤ 13 → validateName name = none) := by
  refine ⟨fun h => ?_, fun h => ?_, fun h1 h2 => ?_⟩
  · unfold validateName
    rw [if_pos (by omega)]
  · unfold validateName
    rw [if_neg (by omega), if_pos (by omega)]
  · unfold validateName
    rw [if_neg (by omega), if_neg (by omega)]

/-- C5 witness: the three validation outcomes at concrete names. -/
theorem name_length_validation_witness :
    validateName "" = some "Username is required." ∧
    validateName "abcdefghijklmn"
      = some "Username must be 13 characters or less." ∧
    validateName "Alice" = none :=
  ⟨(name_length_validation "").1 (by decide),
   (name_length_validation "abcdefghijklmn").2.1 (by decide),
   (name_length_validation "Alice").2.2 (by decide) (by decide)⟩

/-- C6 counterexample: the zero-byte file with MIME type "text/plain" is a
selected file whose MIME type does not contain "image", yet the handler
sets no image-field error on it at all (the size-truthiness guard skips
every check), so it is not rejected with "Only images are allowed.". -/
theorem nonimage_reject_counterexample :
    strContains "text/plain" "image" = false ∧
    (handleFileSelect (some ⟨"text/plain", 0⟩)
        ⟨⟨none, none, none⟩, none⟩).errors.image = none := by
  exact ⟨by decide, by decide⟩

/-- C6 (amended): for every selected file of nonzero size whose MIME type
does not contain "image", the handler sets the image-field error
"Only images are allowed." and leaves the staged file unchanged, so the
file is not staged for upload. -/
theorem nonimage_file_rejected (s : ClientState) (file : File)
    (hsize : file.size ≠ 0) (hmime : strContains file.type "image" = false) :
    (handleFileSelect (some file) s).errors.image
      = some "Only images are allowed." ∧
    (handleFileSelect (some file) s).selectedFile = s.selectedFile := by
  constructor <;> simp [handleFileSelect, hsize, hmime]

/-- C6 witness: a nonzero-size "text/plain" file is rejected with
"Only images are allowed." and not staged. -/
theorem nonimage_file_rejected_witness :
    (handleFileSelect (some ⟨"text/plain", 5⟩)
        ⟨⟨none, none, none⟩, none⟩).errors.image
      = some "Only images are allowed." ∧
    (handleFileSelect (some ⟨"text/plain", 5⟩)
        ⟨⟨none, none, none⟩, none⟩).selectedFile = none :=
  nonimage_file_rejected ⟨⟨none, none, none⟩, none⟩ ⟨"text/plain", 5⟩
    (by decide) (by decide)

/-- C7: for a selected file whose MIME type contains "image", a size
strictly greater than 5120*1024 bytes is rejected with
"Maximum file size is 5MB." and the file is not staged, while a size in
(0, 5120*1024] bytes is staged with no image error. -/
theorem file_size_limit (s : ClientState) (file : File)
    (hmime : strContains file.type "image" = true) :
    (5120 * 1024 < file.size →
      (handleFileSelect (some file) s).errors.image
        = some "Maximum file size is 5MB." ∧
      (handleFileSelect (some file) s).selectedFile = s.selectedFile) ∧
    (0 < file.size → file.size ≤ 5120 * 1024 →
      (handleFileSelect (some file) s).errors.image = none ∧
      (handleFileSelect (some file) s).selectedFile = some file) := by
  constructor
  · intro hbig
    have h0 : file.size ≠ 0 := by omega
    have hrej : fileSizeRejected file.size = true :=
      (fileSizeRejected_iff file.size).mpr hbig
    constructor <;> simp [handleFileSelect, h0, hmime, hrej]
  · intro hpos hle
    have h0 : file.size ≠ 0 := by omega
    have hrej : fileSizeRejected file.size = false := by
      rcases Bool.eq_false_or_eq_true (fileSizeRejected file.size) with h | h
      · exact absurd ((fileSizeRejected_iff file.size).mp h) (by omega)
      · exact h
    constructor <;> simp [handleFileSelect, h0, hmime, hrej]

/-- C7 witness: a 5242881-byte image file is rejected with
"Maximum file size is 5MB." and a 5242880-byte image file is staged. -/
theorem file_size_limit_witness :
    (handleFileSelect (some ⟨"image/png", 5242881⟩)
        ⟨⟨none, none, none⟩, none⟩).errors.image
      = some "Maximum file size is 5MB." ∧
    (handleFileSelect (some ⟨"image/png", 5242880⟩)
        ⟨⟨none, none, none⟩, none⟩).selectedFile
      = some ⟨"image/png", 5242880⟩ :=
  ⟨((file_size_limit ⟨⟨none, none, none⟩, none⟩ ⟨"image/png", 5242881⟩
      (by decide)).1 (by norm_num)).1,
   ((file_size_limit ⟨⟨none, none, none⟩, none⟩ ⟨"image/png", 5242880⟩
      (by decide)).2 (by norm_num) (by norm_num)).2⟩

/-- C10: the file-select handler always clears the image error first (after
any run the image error is either absent or one of the two fresh rejection
messages), and when no file is chosen or the chosen file has size 0 it
performs no check, sets no error and leaves the staged file unchanged. -/
theorem file_select_clears_and_skips_empty (s : ClientState) :
    ((handleFileSelect none s).errors.image = none ∧
      (handleFileSelect none s).selectedFile = s.selectedFile) ∧
    (∀ file : File, file.size = 0 →
      (handleFileSelect (some file) s).errors.image = none ∧
      (handleFileSelect (some file) s).selectedFile = s.selectedFile) ∧
    (∀ file? : Option File,
      (handleFileSelect file? s).errors.image = none ∨
      (handleFileSelect file? s).errors.image
        = some "Only images are allowed." ∨
      (handleFileSelect file? s).errors.image
        = some "Maximum file size is 5MB.") := by
  refine ⟨⟨by simp [handleFileSelect], by simp [handleFileSelect]⟩,
    fun file h0 => ⟨by simp [handleFileSelect, h0], by simp [handleFileSelect, h0]⟩,
    fun file? => ?_⟩
  cases file? with
  | none => left; simp [handleFileSelect]
  | some file =>
    by_cases h0 : file.size = 0
    · left; simp [handleFileSelect, h0]
    · by_cases hm : strContains file.type "image" = false
      · right; left; simp [handleFileSelect, h0, hm]
      · by_cases hr : fileSizeRejected file.size = true
        · right; right; simp [handleFileSelect, h0, hm, hr]
        · left
          simp [handleFileSelect, h0, hm,
            Bool.eq_false_iff.mpr hr]

/-- C10 witness: a zero-byte file clears a pre-existing image error, sets
none, and leaves the staged file unchanged. -/
theorem file_select_clears_and_skips_empty_witness :
    (handleFileSelect (some ⟨"text/plain", 0⟩)
        ⟨⟨none, none, some "old"⟩, none⟩).errors.image = none ∧
    (handleFileSelect (some ⟨"text/plain", 0⟩)
        ⟨⟨none, none, some "old"⟩, none⟩).selectedFile = none :=
  (file_select_clears_and_skips_empty
    ⟨⟨none, none, some "old"⟩, none⟩).2.1 ⟨"text/plain", 0⟩ rfl

/-- C1: when a file is staged, a rejected ticket request or a rejected PUT
upload aborts the whole submission: `updateUser` is never invoked, the
failure toast is emitted, and a message-less error is set on the image
field. -/
theorem upload_failure_aborts (bucketUrl : String) (eff : Effects)
    (s : ClientState) (data : Inputs) (file : File)
    (hfile : s.selectedFile = some file)
    (hfail : eff.presign = Except.error () ∨
      ∃ t, eff.presign = Except.ok t ∧ eff.put t.url = Except.error ()) :
    (onSubmit bucketUrl eff s data).updateCall = none ∧
    (onSubmit bucketUrl eff s data).toasts
      = [Toast.error "Couldn\x27t upload your file."] ∧
    (onSubmit bucketUrl eff s data).state.errors.image = some "" := by
  rcases hfail with hp | ⟨t, hp, hput⟩
  · rw [onSubmit_presignFail bucketUrl eff s data file hfile hp]
    exact ⟨rfl, rfl, rfl⟩
  · rw [onSubmit_putFail bucketUrl eff s data file t hfile hp hput]
    exact ⟨rfl, rfl, rfl⟩

/-- C1 witness: a staged file with a rejected ticket request gives no
update call, the failure toast, and the message-less image error. -/
theorem upload_failure_aborts_witness :
    (onSubmit "b" ⟨Except.error (), fun _ => Except.ok (), fun _ => Except.ok ()⟩
        ⟨⟨none, none, none⟩, some ⟨"image/png", 10⟩⟩
        ⟨"Alice", "Hi", "http://e/x"⟩).updateCall = none ∧
    (onSubmit "b" ⟨Except.error (), fun _ => Except.ok (), fun _ => Except.ok ()⟩
        ⟨⟨none, none, none⟩, some ⟨"image/png", 10⟩⟩
        ⟨"Alice", "Hi", "http://e/x"⟩).toasts
      = [Toast.error "Couldn\x27t upload your file."] ∧
    (onSubmit "b" ⟨Except.error (), fun _ => Except.ok (), fun _ => Except.ok ()⟩
        ⟨⟨none, none, none⟩, some ⟨"image/png", 10⟩⟩
        ⟨"Alice", "Hi", "http://e/x"⟩).state.errors.image = some "" :=
  upload_failure_aborts "b"
    ⟨Except.error (), fun _ => Except.ok (), fun _ => Except.ok ()⟩
    ⟨⟨none, none, none⟩, some ⟨"image/png", 10⟩⟩
    ⟨"Alice", "Hi", "http://e/x"⟩ ⟨"image/png", 10⟩ rfl (Or.inl rfl)

/-- C2: any payload `updateUser` receives carries as its image value either
the form image value (when no file is staged) or the bucket base joined
with the key of the ticket the presign call returned (when a file is
staged) — never the staged local file itself. -/
theorem update_image_provenance (bucketUrl : String) (eff : Effects)
    (s : ClientState) (data : Inputs) (p : UpdatePayload)
    (h : (onSubmit bucketUrl eff s data).updateCall = some p) :
    (s.selectedFile = none ∧ p.image = data.image) ∨
    (∃ file t, s.selectedFile = some file ∧ eff.presign = Except.ok t ∧
      p.image = bucketUrl ++ "/" ++ t.key) := by
  cases hfile : s.selectedFile with
  | none =>
    left
    rw [onSubmit_noFile bucketUrl eff s data hfile,
      finishUpdate_updateCall] at h
    injection h with h1
    exact ⟨rfl, by rw [← h1]⟩
  | some file =>
    cases hp : eff.presign with
    | error e0 =>
      rw [onSubmit_presignFail bucketUrl eff s data file hfile hp] at h
      exact Option.noConfusion h
    | ok t =>
      cases hput : eff.put t.url with
      | error e0 =>
        rw [onSubmit_putFail bucketUrl eff s data file t hfile hp hput] at h
        exact Option.noConfusion h
      | ok u =>
        right
        rw [onSubmit_putOk bucketUrl eff s data file t hfile hp hput,
          finishUpdate_updateCall] at h
        injection h with h1
        exact ⟨file, t, rfl, rfl, by rw [← h1]⟩

/-- C2 witness: a no-file submission whose update call succeeds satisfies
the provenance disjunction at a concrete input. -/
theorem update_image_provenance_witness :
    ((⟨⟨none, none, none⟩, none⟩ : ClientState).selectedFile = none ∧
      (⟨"Alice", "Hi", "http://e/x", true⟩ : UpdatePayload).image
        = (⟨"Alice", "Hi", "http://e/x"⟩ : Inputs).image) ∨
    (∃ file t,
      (⟨⟨none, none, none⟩, none⟩ : ClientState).selectedFile = some file ∧
      (⟨Except.ok ⟨"u", "k"⟩, fun _ => Except.ok (),
          fun _ => Except.ok ()⟩ : Effects).presign = Except.ok t ∧
      (⟨"Alice", "Hi", "http://e/x", true⟩ : UpdatePayload).image
        = "b" ++ "/" ++ t.key) :=
  update_image_provenance "b"
    ⟨Except.ok ⟨"u", "k"⟩, fun _ => Except.ok (), fun _ => Except.ok ()⟩
    ⟨⟨none, none, none⟩, none⟩ ⟨"Alice", "Hi", "http://e/x"⟩
    ⟨"Alice", "Hi", "http://e/x", true⟩ rfl

/-- C3: with no staged file, `updateUser` receives exactly the object built
from the validated form values with `setupCompleted := true`; a fulfilled
update emits the success toast and a rejected one emits the generic
failure toast. -/
theorem no_file_update_contract (bucketUrl : String) (eff : Effects)
    (s : ClientState) (data : Inputs) (hnofile : s.selectedFile = none) :
    (onSubmit bucketUrl eff s data).updateCall
      = some ⟨data.name, data.description, data.image, true⟩ ∧
    (eff.update ⟨data.name, data.description, data.image, true⟩
        = Except.ok () →
      (onSubmit bucketUrl eff s data).toasts
        = [Toast.success "Account settings saved!"]) ∧
    (eff.update ⟨data.name, data.description, data.image, true⟩
        = Except.error () →
      (onSubmit bucketUrl eff s data).toasts
        = [Toast.error "Something went wrong!"]) := by
  rw [onSubmit_noFile bucketUrl eff s data hnofile]
  refine ⟨finishUpdate_updateCall eff s _ none, fun h => ?_, fun h => ?_⟩ <;>
    simp [finishUpdate, h]

/-- C3 witness: a concrete no-file submission with fulfilled update sends
exactly the expected payload and emits the success toast. -/
theorem no_file_update_contract_witness :
    (onSubmit "b" ⟨Except.ok ⟨"u", "k"⟩, fun _ => Except.ok (),
        fun _ => Except.ok ()⟩ ⟨⟨none, none, none⟩, none⟩
        ⟨"Alice", "Hi", "http://e/x"⟩).updateCall
      = some ⟨"Alice", "Hi", "http://e/x", true⟩ ∧
    (onSubmit "b" ⟨Except.ok ⟨"u", "k"⟩, fun _ => Except.ok (),
        fun _ => Except.ok ()⟩ ⟨⟨none, none, none⟩, none⟩
        ⟨"Alice", "Hi", "http://e/x"⟩).toasts
      = [Toast.success "Account settings saved!"] :=
  ⟨(no_file_update_contract "b"
      ⟨Except.ok ⟨"u", "k"⟩, fun _ => Except.ok (), fun _ => Except.ok ()⟩
      ⟨⟨none, none, none⟩, none⟩ ⟨"Alice", "Hi", "http://e/x"⟩ rfl).1,
   (no_file_update_contract "b"
      ⟨Except.ok ⟨"u", "k"⟩, fun _ => Except.ok (), fun _ => Except.ok ()⟩
      ⟨⟨none, none, none⟩, none⟩ ⟨"Alice", "Hi", "http://e/x"⟩ rfl).2.1 rfl⟩

/-- C8: resubmitting the same validated form data with no staged file
sends the identical payload to `updateUser` on every submission of a
sequence, whatever the network outcomes in between: no hidden state
accumulates into the payload. -/
theorem resubmit_same_payload (bucketUrl : String) (data : Inputs)
    (s : ClientState) (effs : List Effects)
    (hnofile : s.selectedFile = none) :
    (runSubmissions bucketUrl data s effs).map SubmitResult.updateCall
      = List.replicate effs.length
          (some ⟨data.name, data.description, data.image, true⟩) := by
  induction effs generalizing s with
  | nil => rfl
  | cons eff rest ih =>
    have h1 : (onSubmit bucketUrl eff s data).updateCall
        = some ⟨data.name, data.description, data.image, true⟩ := by
      rw [onSubmit_noFile bucketUrl eff s data hnofile,
        finishUpdate_updateCall]
    have h2 : (onSubmit bucketUrl eff s data).state.selectedFile = none := by
      rw [onSubmit_selectedFile]
      exact hnofile
    simp only [runSubmissions, List.map_cons, List.length_cons,
      List.replicate_succ]
    rw [h1, ih _ h2]

/-- C8 witness: two submissions of the same data with no staged file, the
first fulfilled and the second rejected, both invoke `updateUser` with the
identical payload. -/
theorem resubmit_same_payload_witness :
    (runSubmissions "b" ⟨"Alice", "Hi", "http://e/x"⟩
        ⟨⟨none, none, none⟩, none⟩
        [⟨Except.ok ⟨"u", "k"⟩, fun _ => Except.ok (), fun _ => Except.ok ()⟩,
         ⟨Except.error (), fun _ => Except.ok (),
           fun _ => Except.error ()⟩]).map SubmitResult.updateCall
      = List.replicate 2 (some ⟨"Alice", "Hi", "http://e/x", true⟩) :=
  resubmit_same_payload "b" ⟨"Alice", "Hi", "http://e/x"⟩
    ⟨⟨none, none, none⟩, none⟩ _ rfl

/-- C9: the submit control is disabled exactly when a submission is in
flight or one of the tracked fields (name, description, image) has an
active error; consequently a click starts no new submission while one is
in flight, and none while a tracked error is active. -/
theorem submit_gate (s : UIState) :
    (submitDisabled s.inFlight s.errors = true ↔
      (s.inFlight = true ∨ s.errors.name.isSome = true ∨
        s.errors.description.isSome = true ∨
        s.errors.image.isSome = true)) ∧
    (s.inFlight = true → (clickSubmit s).2 = false) ∧
    (thereAreErrors s.errors = true → (clickSubmit s).2 = false) := by
  obtain ⟨f, n, d, i⟩ := s
  refine ⟨?_, fun h => ?_, fun h => ?_⟩
  · simp only [submitDisabled, thereAreErrors]
    cases f <;> cases n <;> cases d <;> cases i <;> simp
  · have hd : submitDisabled f ⟨n, d, i⟩ = true := by
      simp only [UIState.inFlight] at h
      simp [submitDisabled, h]
    simp [clickSubmit, hd]
  · have hd : submitDisabled f ⟨n, d, i⟩ = true := by
      simp only [UIState.errors] at h
      simp [submitDisabled, h]
    simp [clickSubmit, hd]

/-- C9 witness: with a submission in flight and no errors, a click starts
no new submission. -/
theorem submit_gate_witness :
    (clickSubmit ⟨true, ⟨none, none, none⟩⟩).2 = false :=
  (submit_gate ⟨true, ⟨none, none, none⟩⟩).2.1 rfl

/-- C4: a request to the settings route with no resolved session yields a
non-permanent redirect to the login destination, and the result exposes no
user record in page props. -/
theorem unauthenticated_redirect (loginDestination : String) :
    getServerSideProps loginDestination none
      = GSSPResult.redirect loginDestination false ∧
    (getServerSideProps loginDestination none).userData = none :=
  ⟨rfl, rfl⟩

end BookApp
